import Mathlib

/-!
# OpenDrop-VJ — verification of the Deck Orchestration & Mixing Engine spec

Shallow embedding of the frontend sources of OpenDrop-VJ (Svelte/TypeScript)
together with spec-modelled fragments for backend commands that are not part
of the frontend sources.  Each claim of the specification is settled by one
theorem below.
-/

namespace OpenDrop

/-! ## Crossfader (src/lib/components/CrossfaderPanel.svelte)

The panel computes the displayed per-side gain from the crossfader config:

```
let sideAVolume = $derived(
  crossfader.enabled
    ? (crossfader.curve === 'equal_power' ? Math.sqrt(1 - position) : 1 - position)
    : 1);
let sideBVolume = $derived(
  crossfader.enabled
    ? (crossfader.curve === 'equal_power' ? Math.sqrt(position) : position)
    : 1);
```
-/

/-- The crossfader curve, a string `'linear' | 'equal_power'` in the source. -/
inductive Curve where
  | linear : Curve
  | equal_power : Curve
deriving DecidableEq, Repr

/-- `sideAVolume` from CrossfaderPanel.svelte, lines 69–75. -/
noncomputable def sideAVolume (enabled : Bool) (curve : Curve) (position : ℝ) : ℝ :=
  if enabled then
    (if curve = Curve.equal_power then Real.sqrt (1 - position) else 1 - position)
  else 1

/-- `sideBVolume` from CrossfaderPanel.svelte, lines 77–83. -/
noncomputable def sideBVolume (enabled : Bool) (curve : Curve) (position : ℝ) : ℝ :=
  if enabled then
    (if curve = Curve.equal_power then Real.sqrt position else position)
  else 1

/-- C1: for every crossfader position p in [0,1], with the crossfader enabled
and the `equal_power` curve, the side-A gain `sqrt (1 - p)` and side-B gain
`sqrt p` satisfy `gainA p ^ 2 + gainB p ^ 2 = 1` (exactly, in the real-number
model of the floating-point computation). -/
theorem equal_power_gains_sum_of_squares (p : ℝ) (h0 : 0 ≤ p) (h1 : p ≤ 1) :
    sideAVolume true Curve.equal_power p ^ 2
      + sideBVolume true Curve.equal_power p ^ 2 = 1 := by
  simp only [sideAVolume, sideBVolume, if_pos, if_true]
  rw [Real.sq_sqrt (by linarith), Real.sq_sqrt h0]
  ring

/-- Witness for C1 at p = 1/2. -/
theorem equal_power_gains_sum_of_squares_witness :
    (0 : ℝ) ≤ 1/2 ∧ (1 : ℝ)/2 ≤ 1 ∧
      sideAVolume true Curve.equal_power (1/2) ^ 2
        + sideBVolume true Curve.equal_power (1/2) ^ 2 = 1 :=
  ⟨by norm_num, by norm_num,
    equal_power_gains_sum_of_squares (1/2) (by norm_num) (by norm_num)⟩

/-- Numeric bounds on `√(1/2)`, used to justify the spec's `≈ 0.7071`. -/
lemma sqrt_half_between : 0.7071 < Real.sqrt (1/2) ∧ Real.sqrt (1/2) < 0.7072 := by
  constructor
  · rw [show (0.7071 : ℝ) = Real.sqrt (0.7071 ^ 2) from
      (Real.sqrt_sq (by norm_num)).symm]
    exact Real.sqrt_lt_sqrt (by norm_num) (by norm_num)
  · rw [show (0.7072 : ℝ) = Real.sqrt (0.7072 ^ 2) from
      (Real.sqrt_sq (by norm_num)).symm]
    exact Real.sqrt_lt_sqrt (by norm_num) (by norm_num)

/-- C2: with the crossfader enabled, side A's gain is `1 - p` under the linear
curve and `√(1 - p)` under equal power; side B's gain is `p` under linear and
`√p` under equal power.  At `p = 1/2` under equal power both sides receive the
gain `√(1/2)`, which lies within 0.0001 of 0.7071. -/
theorem crossfader_gain_formulas (p : ℝ) :
    sideAVolume true Curve.linear p = 1 - p ∧
    sideAVolume true Curve.equal_power p = Real.sqrt (1 - p) ∧
    sideBVolume true Curve.linear p = p ∧
    sideBVolume true Curve.equal_power p = Real.sqrt p ∧
    sideAVolume true Curve.equal_power (1/2) = Real.sqrt (1/2) ∧
    sideBVolume true Curve.equal_power (1/2) = Real.sqrt (1/2) ∧
    |Real.sqrt (1/2) - 0.7071| < 0.0001 := by
  obtain ⟨hlo, hhi⟩ := sqrt_half_between
  refine ⟨?_, ?_, ?_, ?_, ?_, ?_, ?_⟩
  · simp [sideAVolume]
  · simp [sideAVolume]
  · simp [sideBVolume]
  · simp [sideBVolume]
  · norm_num [sideAVolume]
  · simp [sideBVolume]
  · rw [abs_sub_lt_iff]
    constructor <;> linarith

/-- C3: whenever the crossfader's `enabled` flag is false, both computed side
gains are 1, for every position and both curves. -/
theorem crossfader_disabled_unity_gain (p : ℝ) (c : Curve) :
    sideAVolume false c p = 1 ∧ sideBVolume false c p = 1 := by
  constructor <;> simp [sideAVolume, sideBVolume]

/-! ## Audio pump loop (src/routes/+page.svelte)

```
let audioPumpErrorCount = $state(0);
const AUDIO_PUMP_ERROR_THRESHOLD = 5;

async function audioPumpLoop() {
  if (!audioPumpActive) return;
  try {
    await invoke("pump_audio");
    audioPumpErrorCount = 0; // Reset on success
  } catch (e) {
    audioPumpErrorCount++;
    if (audioPumpErrorCount === AUDIO_PUMP_ERROR_THRESHOLD) {
      showToast("Audio capture failing - check device connection", "error");
    }
  }
  audioPumpId = requestAnimationFrame(audioPumpLoop);
}
```

The `invoke("pump_audio")` outcome is modelled by a boolean `ok`;
`requestAnimationFrame` is modelled by handing the loop a fresh callback id.
-/

def AUDIO_PUMP_ERROR_THRESHOLD : ℕ := 5

/-- The try/catch body of `audioPumpLoop` acting on `audioPumpErrorCount`:
given the outcome of one `pump_audio` call and the current counter, returns
the new counter and whether the warning toast fired on this tick. -/
def pumpTick (ok : Bool) (errorCount : ℕ) : ℕ × Bool :=
  if ok then (0, false)
  else (errorCount + 1, errorCount + 1 == AUDIO_PUMP_ERROR_THRESHOLD)

/-- Runs `pumpTick` over a list of tick outcomes, counting warning toasts. -/
def pumpRun (ticks : List Bool) (errorCount : ℕ) : ℕ × ℕ :=
  match ticks with
  | [] => (errorCount, 0)
  | ok :: rest =>
    let t := pumpTick ok errorCount
    let r := pumpRun rest t.1
    (r.1, (if t.2 then 1 else 0) + r.2)

/-- The mutable state touched by the pump loop: `audioPumpActive`,
`audioPumpErrorCount` and the pending `requestAnimationFrame` id
(`audioPumpId`, `null` modelled as `none`). -/
structure PumpLoopState where
  audioPumpActive : Bool
  audioPumpErrorCount : ℕ
  audioPumpId : Option ℕ
deriving DecidableEq, Repr

/-- The observable result of one call of `audioPumpLoop`. -/
structure PumpTickResult where
  state : PumpLoopState
  /-- whether the warning toast fired during this call -/
  warningRaised : Bool
  /-- whether `invoke("pump_audio")` was performed during this call -/
  pumped : Bool
  /-- whether `requestAnimationFrame(audioPumpLoop)` was called -/
  scheduledNext : Bool
deriving DecidableEq, Repr

/-- One call of `audioPumpLoop`: early return when the pump is inactive;
otherwise one pump operation (outcome `ok`), the error-count bookkeeping of
`pumpTick`, and unconditional rescheduling with the fresh frame id `nid`. -/
def audioPumpLoop (ok : Bool) (nid : ℕ) (s : PumpLoopState) : PumpTickResult :=
  if s.audioPumpActive = false then ⟨s, false, false, false⟩
  else
    let t := pumpTick ok s.audioPumpErrorCount
    ⟨{ s with audioPumpErrorCount := t.1, audioPumpId := some nid }, t.2, true, true⟩

/-- `startAudioPump`: does nothing when already active, otherwise sets
`audioPumpActive` and runs `audioPumpLoop()` once immediately. -/
def startAudioPump (ok : Bool) (nid : ℕ) (s : PumpLoopState) : PumpLoopState :=
  if s.audioPumpActive then s
  else (audioPumpLoop ok nid { s with audioPumpActive := true }).state

/-- `stopAudioPump`: clears `audioPumpActive`, cancels any pending
`requestAnimationFrame` callback and nulls `audioPumpId` (rAF ids are
non-zero, so the source's truthiness test is a `some`-test here). -/
def stopAudioPump (s : PumpLoopState) : PumpLoopState :=
  let s1 := { s with audioPumpActive := false }
  match s1.audioPumpId with
  | some _ => { s1 with audioPumpId := none }
  | none => s1

/-- `decks.some(d => d.running)`, with each deck abbreviated to its
`running` flag. -/
def anyDeckRunning (decks : List Bool) : Bool := decks.any id

/-- The `$effect` tying the pump to deck/audio state: start the pump when
some deck is running and audio capture is running, stop it otherwise. -/
def pumpEffect (ok : Bool) (nid : ℕ) (deckRunning audioRunning : Bool)
    (s : PumpLoopState) : PumpLoopState :=
  if deckRunning && audioRunning then startAudioPump ok nid s
  else stopAudioPump s

/-- C4: a failed tick increments the consecutive-failure counter and raises
the warning exactly when the counter reaches the threshold 5; a successful
tick resets the counter to 0 without warning.  Concretely: 5 consecutive
failures raise exactly one warning, a 6th raises none, and a success after
3 failures resets the count so that 5 new failures are needed to warn. -/
theorem audio_pump_warning_discipline :
    (∀ c : ℕ, (pumpTick false c).1 = c + 1) ∧
    (∀ c : ℕ, (pumpTick false c).2 = (c + 1 == AUDIO_PUMP_ERROR_THRESHOLD)) ∧
    (∀ c : ℕ, pumpTick true c = (0, false)) ∧
    (pumpRun (List.replicate 5 false) 0).2 = 1 ∧
    (pumpRun (List.replicate 6 false) 0).2 = 1 ∧
    (pumpRun ([false, false, false, true] ++ List.replicate 4 false) 0).2 = 0 ∧
    (pumpRun ([false, false, false, true] ++ List.replicate 5 false) 0).2 = 1 := by
  refine ⟨fun c => rfl, fun c => rfl, fun c => rfl, ?_, ?_, ?_, ?_⟩ <;> decide

/-- C5: `audioPumpLoop` reschedules itself if and only if the pump is still
active — in particular a pump failure never terminates the loop, and the
rescheduling decision is independent of the tick outcome. -/
theorem audio_pump_loop_reschedules (ok : Bool) (nid : ℕ) (s : PumpLoopState) :
    (audioPumpLoop ok nid s).scheduledNext = s.audioPumpActive ∧
    (audioPumpLoop false nid s).scheduledNext
      = (audioPumpLoop true nid s).scheduledNext := by
  constructor
  · by_cases h : s.audioPumpActive = false <;> simp [audioPumpLoop, h]
  · by_cases h : s.audioPumpActive = false <;> simp [audioPumpLoop, h]

/-- C6: after the `$effect` runs, the pump is active exactly when some deck
is running and audio capture is enabled; in any other state the pump is
stopped with no pending frame callback, and an inactive pump neither pumps
nor reschedules.  While active, each `audioPumpLoop` call pumps once and
schedules exactly one next-frame callback. -/
theorem audio_pump_effect_activity (ok : Bool) (nid : ℕ) (decks : List Bool)
    (audioRunning : Bool) (s : PumpLoopState)
    (hidle : (anyDeckRunning decks && audioRunning) = false) :
    (∀ ok2 nid2 r2 s2,
      (pumpEffect ok2 nid2 (anyDeckRunning decks) r2 s2).audioPumpActive
        = (anyDeckRunning decks && r2)) ∧
    pumpEffect ok nid (anyDeckRunning decks) audioRunning s = stopAudioPump s ∧
    (stopAudioPump s).audioPumpActive = false ∧
    (stopAudioPump s).audioPumpId = none ∧
    (audioPumpLoop ok nid (stopAudioPump s)).pumped = false ∧
    (audioPumpLoop ok nid (stopAudioPump s)).scheduledNext = false ∧
    (∀ ok2 nid2 s2, (audioPumpLoop ok2 nid2 s2).pumped = s2.audioPumpActive ∧
      (audioPumpLoop ok2 nid2 s2).scheduledNext = s2.audioPumpActive ∧
      ((audioPumpLoop ok2 nid2 s2).pumped = true →
        (audioPumpLoop ok2 nid2 s2).state.audioPumpId = some nid2)) := by
  have hstop : ∀ u : PumpLoopState,
      (stopAudioPump u).audioPumpActive = false ∧
      (stopAudioPump u).audioPumpId = none := by
    intro u
    cases h : u.audioPumpId <;> simp [stopAudioPump, h]
  have hloop : ∀ (ok2 : Bool) (nid2 : ℕ) (s2 : PumpLoopState),
      (audioPumpLoop ok2 nid2 s2).pumped = s2.audioPumpActive ∧
      (audioPumpLoop ok2 nid2 s2).scheduledNext = s2.audioPumpActive ∧
      ((audioPumpLoop ok2 nid2 s2).pumped = true →
        (audioPumpLoop ok2 nid2 s2).state.audioPumpId = some nid2) := by
    intro ok2 nid2 s2
    by_cases h : s2.audioPumpActive = false <;>
      simp_all [audioPumpLoop]
  have hact : ∀ (ok2 : Bool) (nid2 : ℕ) (r2 : Bool) (s2 : PumpLoopState),
      (pumpEffect ok2 nid2 (anyDeckRunning decks) r2 s2).audioPumpActive
        = (anyDeckRunning decks && r2) := by
    intro ok2 nid2 r2 s2
    by_cases h : (anyDeckRunning decks && r2) = true
    · have hs : ∀ u : PumpLoopState,
          (startAudioPump ok2 nid2 u).audioPumpActive = true := by
        intro u
        by_cases hu : u.audioPumpActive <;>
          simp [startAudioPump, hu, audioPumpLoop]
      simp [pumpEffect, h, hs]
    · simp only [Bool.not_eq_true] at h
      simp [pumpEffect, h, (hstop _).1]
  refine ⟨hact, ?_, (hstop s).1, (hstop s).2, ?_, ?_, hloop⟩
  · simp [pumpEffect, hidle]
  · exact ((hloop ok nid (stopAudioPump s)).1).trans (hstop s).1
  · exact ((hloop ok nid (stopAudioPump s)).2.1).trans (hstop s).1

/-- Witness for C6: one stopped deck, audio running, a previously active pump
state with a pending callback. -/
theorem audio_pump_effect_activity_witness :
    (anyDeckRunning [false] && true) = false ∧
    pumpEffect true 7 (anyDeckRunning [false]) true
        ⟨true, 3, some 2⟩ = stopAudioPump ⟨true, 3, some 2⟩ ∧
    (stopAudioPump (⟨true, 3, some 2⟩ : PumpLoopState)).audioPumpId = none := by
  have h := audio_pump_effect_activity true 7 [false] true ⟨true, 3, some 2⟩
    (by decide)
  exact ⟨by decide, h.2.1, h.2.2.2.1⟩

/-! ## Playlist (src/lib/components/PlaylistPanel.svelte and backend commands)

The panel disables the Previous/Next/Clear buttons with
`disabled={playlist.items.length === 0}` and constrains the auto-cycle
duration input with `min="5" max="300"`.  The `playlist_next`,
`playlist_previous` and `playlist_set_settings` commands are handled by the
Tauri backend, which is not part of the frontend sources; those handlers are
modelled from the spec below.
-/

/-- A playlist entry `{ name, path }`. -/
structure PlaylistItem where
  name : String
  path : String
deriving DecidableEq, Repr

/-- The playlist record shipped with each deck's status. -/
structure Playlist where
  name : String
  items : List PlaylistItem
  current_index : ℕ
  shuffle : Bool
  auto_cycle : Bool
  cycle_duration_secs : ℤ
deriving DecidableEq, Repr

/-- `disabled={playlist.items.length === 0}` on the Previous button. -/
def prevButtonDisabled (pl : Playlist) : Bool := pl.items.length == 0

/-- `disabled={playlist.items.length === 0}` on the Next button. -/
def nextButtonDisabled (pl : Playlist) : Bool := pl.items.length == 0

/-- Modelled from the spec: the backend `playlist_next` handler
(PlaylistScheduler.next) is absent from the frontend sources.  Per §4.4 it
advances `current_index` with wraparound when `shuffle = false`, picks some
other index when `shuffle = true` (the random choice is the `pick`
parameter), and calling it on an empty playlist is a no-op, not an error. -/
def playlist_next (pick : ℕ) (pl : Playlist) : Playlist :=
  if pl.items.length = 0 then pl
  else if pl.shuffle then { pl with current_index := pick % pl.items.length }
  else { pl with current_index := (pl.current_index + 1) % pl.items.length }

/-- Modelled from the spec: the backend `playlist_previous` handler is absent
from the frontend sources.  Per §4.4 it retreats `current_index` with
wraparound when `shuffle = false`, picks some other index when
`shuffle = true`, and calling it on an empty playlist is a no-op. -/
def playlist_previous (pick : ℕ) (pl : Playlist) : Playlist :=
  if pl.items.length = 0 then pl
  else if pl.shuffle then { pl with current_index := pick % pl.items.length }
  else { pl with current_index :=
    (pl.current_index + pl.items.length - 1) % pl.items.length }

/-- The `min` attribute of the cycle-duration number input. -/
def cycleInputMin : ℤ := 5

/-- The `max` attribute of the cycle-duration number input. -/
def cycleInputMax : ℤ := 300

/-- Modelled from the spec: the backend `playlist_set_settings` handler (the
settings boundary) is absent from the frontend sources.  Per §4.4 the cycle
duration is "seconds, ≥5 and ≤300, enforced at the settings boundary",
modelled as clamping the requested value into [5, 300]. -/
def playlist_set_cycle_duration (requested : ℤ) (pl : Playlist) : Playlist :=
  { pl with cycle_duration_secs := max 5 (min 300 requested) }

/-- C7: next/previous on an empty playlist is a no-op (and returns normally,
i.e. it is not an error), and the panel's Previous and Next buttons are
disabled exactly when the playlist has zero items. -/
theorem playlist_empty_nav_noop (pick : ℕ) (pl : Playlist) :
    (pl.items = [] →
      playlist_next pick pl = pl ∧ playlist_previous pick pl = pl) ∧
    prevButtonDisabled pl = decide (pl.items = []) ∧
    nextButtonDisabled pl = decide (pl.items = []) := by
  refine ⟨fun h => ?_, ?_, ?_⟩
  · constructor <;> simp [playlist_next, playlist_previous, h]
  · cases h : pl.items <;> simp [prevButtonDisabled, h]
  · cases h : pl.items <;> simp [nextButtonDisabled, h]

/-- Witness for C7 on a concrete empty playlist. -/
theorem playlist_empty_nav_noop_witness :
    (Playlist.mk "" [] 0 false false 30).items = [] ∧
    playlist_next 2 (Playlist.mk "" [] 0 false false 30)
      = Playlist.mk "" [] 0 false false 30 ∧
    playlist_previous 2 (Playlist.mk "" [] 0 false false 30)
      = Playlist.mk "" [] 0 false false 30 :=
  ⟨rfl,
    ((playlist_empty_nav_noop 2 (Playlist.mk "" [] 0 false false 30)).1 rfl).1,
    ((playlist_empty_nav_noop 2 (Playlist.mk "" [] 0 false false 30)).1 rfl).2⟩

/-- C8: every cycle duration committed through the settings boundary lies in
[5, 300] (the same bounds the panel's number input advertises), and in-range
requests are committed unchanged. -/
theorem cycle_duration_bounds (req : ℤ) (pl : Playlist) :
    cycleInputMin ≤ (playlist_set_cycle_duration req pl).cycle_duration_secs ∧
    (playlist_set_cycle_duration req pl).cycle_duration_secs ≤ cycleInputMax ∧
    (cycleInputMin ≤ req → req ≤ cycleInputMax →
      (playlist_set_cycle_duration req pl).cycle_duration_secs = req) := by
  refine ⟨?_, ?_, fun h1 h2 => ?_⟩ <;>
    simp only [playlist_set_cycle_duration, cycleInputMin, cycleInputMax] at * <;>
    omega

/-- Witness for C8 at an in-range request. -/
theorem cycle_duration_bounds_witness :
    cycleInputMin ≤ (30 : ℤ) ∧ (30 : ℤ) ≤ cycleInputMax ∧
    (playlist_set_cycle_duration 30
        (Playlist.mk "" [] 0 false true 30)).cycle_duration_secs = 30 :=
  ⟨by decide, by decide,
    (cycle_duration_bounds 30 (Playlist.mk "" [] 0 false true 30)).2.2
      (by decide) (by decide)⟩

/-! ## Favorites store (src/lib/stores/favorites.svelte.ts)

The store keeps a `Set<string>` of preset paths; `toggleFavorite` copies the
set, inserts or deletes, and returns whether the path was added.  The set is
modelled as a `Finset String`.
-/

/-- `toggleFavorite` from favorites.svelte.ts, lines 76–89: returns the new
favorites set and `wasAdded` (true when the path was absent before). -/
def toggleFavorite (paths : Finset String) (path : String) :
    Finset String × Bool :=
  let wasAdded : Bool := !(decide (path ∈ paths))
  (if wasAdded then insert path paths else paths.erase path, wasAdded)

/-- `isFavorite` from favorites.svelte.ts, lines 96–98. -/
def isFavorite (paths : Finset String) (path : String) : Bool :=
  decide (path ∈ paths)

/-- C9: `toggleFavorite` reports prior absence (its boolean result is the
negation of `isFavorite` before the call), afterwards `isFavorite` equals
that result, and toggling twice restores the original favorites set. -/
theorem toggleFavorite_involution (s : Finset String) (p : String) :
    (toggleFavorite s p).2 = !(isFavorite s p) ∧
    isFavorite (toggleFavorite s p).1 p = (toggleFavorite s p).2 ∧
    (toggleFavorite (toggleFavorite s p).1 p).1 = s := by
  by_cases h : p ∈ s
  · simp [toggleFavorite, isFavorite, h, Finset.insert_erase]
  · simp [toggleFavorite, isFavorite, h, Finset.erase_insert]

/-! ## Category extraction (src/lib/stores/categories.svelte.ts)

```
const normalizedPath = path.replace(/\\/g, '/');
const segments = normalizedPath.split('/').filter(Boolean);
const presetIndex = segments.findIndex(
  (s) => s.endsWith('.milk') || s.endsWith('.prjm'));
```

`extractCategory` then returns `segments[presetIndex - 1]` when
`presetIndex >= 1`; `extractCategoryDetails` returns
`{ category: segments[presetIndex - 2], subcategory: segments[presetIndex - 1] }`
when `presetIndex >= 2`.  String splitting is embedded structurally over the
character list so that concrete paths evaluate inside proofs.
-/

/-- `split('/')` on a character list: accumulates the current segment
(reversed) and emits it at each separator, like the JS `String.split`. -/
def splitSlashAux : List Char → List Char → List String
  | [], acc => [String.mk acc.reverse]
  | c :: cs, acc =>
    if c = '/' then String.mk acc.reverse :: splitSlashAux cs []
    else splitSlashAux cs (c :: acc)

/-- `path.replace(/\\/g, '/').split('/').filter(Boolean)`. -/
def normalizeSegments (path : String) : List String :=
  (splitSlashAux (path.data.map (fun c => if c = '\\' then '/' else c)) []).filter
    (fun seg => seg != "")

/-- `seg.endsWith('.milk') || seg.endsWith('.prjm')`, with `endsWith`
expressed on character lists. -/
def isPresetFile (seg : String) : Bool :=
  ".milk".data.isSuffixOf seg.data || ".prjm".data.isSuffixOf seg.data

/-- `extractCategory` from categories.svelte.ts, lines 30–58. -/
def extractCategory (path : String) : String :=
  if path = "" then "Uncategorized"
  else
    match (normalizeSegments path).findIdx? isPresetFile with
    | none => "Uncategorized"
    | some i =>
      if 1 ≤ i then (normalizeSegments path).getD (i - 1) "Uncategorized"
      else "Uncategorized"

/-- The `{ category, subcategory }` record of `extractCategoryDetails`. -/
structure CategoryDetails where
  category : String
  subcategory : Option String
deriving DecidableEq, Repr

/-- `extractCategoryDetails` from categories.svelte.ts, lines 65–97. -/
def extractCategoryDetails (path : String) : CategoryDetails :=
  if path = "" then ⟨"Uncategorized", none⟩
  else
    match (normalizeSegments path).findIdx? isPresetFile with
    | none => ⟨"Uncategorized", none⟩
    | some i =>
      if 2 ≤ i then
        ⟨(normalizeSegments path).getD (i - 2) "Uncategorized",
          some ((normalizeSegments path).getD (i - 1) "Uncategorized")⟩
      else if 1 ≤ i then
        ⟨(normalizeSegments path).getD (i - 1) "Uncategorized", none⟩
      else ⟨"Uncategorized", none⟩

/-- C10: when the first preset-file segment sits at index `i ≥ 2` (so the
file has at least two directory segments above it), `extractCategory`
returns the immediate parent segment, which equals
`extractCategoryDetails`'s subcategory, while `extractCategoryDetails`'s
category is the grandparent segment — so the two functions disagree on the
category whenever parent and grandparent differ. -/
theorem category_functions_disagree (path : String) (i : ℕ)
    (hpath : path ≠ "")
    (hfind : (normalizeSegments path).findIdx? isPresetFile = some i)
    (h2 : 2 ≤ i) :
    extractCategory path = (normalizeSegments path).getD (i - 1) "Uncategorized" ∧
    (extractCategoryDetails path).subcategory = some (extractCategory path) ∧
    (extractCategoryDetails path).category
      = (normalizeSegments path).getD (i - 2) "Uncategorized" ∧
    ((normalizeSegments path).getD (i - 1) "Uncategorized"
        ≠ (normalizeSegments path).getD (i - 2) "Uncategorized" →
      extractCategory path ≠ (extractCategoryDetails path).category) := by
  have h1 : 1 ≤ i := by omega
  refine ⟨?_, ?_, ?_, ?_⟩ <;>
    simp [extractCategory, extractCategoryDetails, hpath, hfind, h1, h2]

/-- Witness for C10 at the doc comment's example path
`/home/user/presets/milkdrop/classic/preset.milk` (parent `classic`,
grandparent `milkdrop`). -/
theorem category_functions_disagree_witness :
    "/home/user/presets/milkdrop/classic/preset.milk" ≠ "" ∧
    (normalizeSegments
        "/home/user/presets/milkdrop/classic/preset.milk").findIdx? isPresetFile
      = some 5 ∧
    extractCategory "/home/user/presets/milkdrop/classic/preset.milk"
      = "classic" ∧
    (extractCategoryDetails
        "/home/user/presets/milkdrop/classic/preset.milk").category
      = "milkdrop" ∧
    extractCategory "/home/user/presets/milkdrop/classic/preset.milk"
      ≠ (extractCategoryDetails
          "/home/user/presets/milkdrop/classic/preset.milk").category := by
  have h := category_functions_disagree
    "/home/user/presets/milkdrop/classic/preset.milk" 5
    (by decide) (by decide) (by decide)
  refine ⟨by decide, by decide, ?_, ?_, ?_⟩
  · exact h.1.trans (by decide)
  · exact h.2.2.1.trans (by decide)
  · exact h.2.2.2 (by decide)

end OpenDrop
